import Mathlib

/-!
Shallow embedding of the inference-time aggregation and confidence-calibration
pipeline of the HFT-Stock-Prediction repository.

Python floats are modelled as exact rationals; the neural base/meta predictors
are external opaque collaborators, so their outputs (probability triples and
deltas) appear as inputs to the embedded functions.

Sources embedded here:
  - src/model.py: ConfidenceCalibrator.ensemble_confidence_boost,
    HighConfidencePredictor.predict_ensemble_high_confidence,
    EnsemblePredictor.load / predict (aggregation combine),
    HFTModel.load_ensemble / predict / predict_batch.
  - src/models/confidence_calibration.py:
    ConfidenceCalibrator.ensemble_confidence_boost,
    HighConfidencePredictor.predict_ensemble_high_confidence.
-/

namespace HFT

/-- A class-probability triple over the classes 0 = SELL, 1 = HOLD, 2 = BUY. -/
structure Probs3 where
  p0 : ℚ
  p1 : ℚ
  p2 : ℚ
deriving DecidableEq

/-- Emulates `np.argmax` on a length-3 vector: the index of the first
occurrence of the maximum (lowest class index wins on an exact tie). -/
def argmax3 (p : Probs3) : ℕ :=
  if p.p1 ≤ p.p0 ∧ p.p2 ≤ p.p0 then 0
  else if p.p2 ≤ p.p1 then 1
  else 2

/-- Emulates `np.max` on a length-3 vector. -/
def max3 (p : Probs3) : ℚ :=
  max p.p0 (max p.p1 p.p2)

/-- Elementwise mean of three probability triples; this is how
`EnsemblePredictor.predict` combines bagging, boosting and stacking into the
final probabilities: `final_action = (avg_action + weighted_action + stacked_action) / 3`
(src/model.py line 176, src/models/ensemble_model.py line 248). -/
def mean3 (a b c : Probs3) : Probs3 :=
  { p0 := (a.p0 + b.p0 + c.p0) / 3
  , p1 := (a.p1 + b.p1 + c.p1) / 3
  , p2 := (a.p2 + b.p2 + c.p2) / 3 }

/-- The agreement counter of src/model.py lines 289-291:
`sum(1 for p in [bagging_pred, boosting_pred, stacking_pred] if p == final_pred)`. -/
def agreement_count (bagging_pred boosting_pred stacking_pred final_pred : ℕ) : ℕ :=
  (if bagging_pred = final_pred then 1 else 0) +
  (if boosting_pred = final_pred then 1 else 0) +
  (if stacking_pred = final_pred then 1 else 0)

/-- The agreement rate computed by src/models/confidence_calibration.py
lines 187-188: `all_preds = [bagging_pred, boosting_pred, stacking_pred]` and
`agreement_rate = sum([p == all_preds[0] for p in all_preds]) / len(all_preds)`.
Note the comparison anchor is `all_preds[0]`, the bagging argmax. -/
def agreement_rate_anchor (bag boo sta : Probs3) : ℚ :=
  let all_preds := [argmax3 bag, argmax3 boo, argmax3 sta]
  (((all_preds.map (fun p => if p = all_preds.headI then 1 else 0)).sum : ℕ) : ℚ) /
    (all_preds.length : ℚ)

/-- src/model.py lines 244-262, `ConfidenceCalibrator.ensemble_confidence_boost`
(the multiplicative policy). Decimal constants: 0.5 = 1/2, 0.4 = 2/5,
1.6 = 8/5, 1.1 = 11/10, 0.8 = 4/5, 0.95 = 19/20. -/
def ensemble_confidence_boost_mult (base_confidence agreement_rate : ℚ) : ℚ :=
  let agreement_boost := 1 + (agreement_rate - 1/2) * (2/5)
  let agreement_boost := if agreement_rate = 1 then agreement_boost * (8/5) else agreement_boost
  let boosted := base_confidence * agreement_boost
  let boosted := if 4/5 ≤ agreement_rate then boosted * (11/10) else boosted
  min boosted (19/20)

/-- src/models/confidence_calibration.py lines 83-97,
`ConfidenceCalibrator.ensemble_confidence_boost` (the additive policy).
Decimal constants: 0.3 = 3/10, 0.1 = 1/10, 0.99 = 99/100. -/
def ensemble_confidence_boost_add (base_confidence agreement_rate : ℚ) (n_models : ℕ) : ℚ :=
  let agreement_bonus := agreement_rate * (3/10)
  let model_bonus := min ((n_models : ℚ) / 10) (1/10)
  let boosted := base_confidence + agreement_bonus + model_bonus
  min boosted (99/100)

/-- The minimum-confidence floor shared by src/model.py lines 303-304 and
src/models/confidence_calibration.py lines 211-212:
`if boosted_confidence < min_confidence and agreement_rate >= 0.67:
boosted_confidence = min_confidence + 0.05`. Constants: 0.67 = 67/100,
0.05 = 1/20. -/
def floor_step (min_confidence boosted_confidence agreement_rate : ℚ) : ℚ :=
  if boosted_confidence < min_confidence ∧ 67/100 ≤ agreement_rate then
    min_confidence + 1/20
  else boosted_confidence

/-- The confidence chain of src/model.py
`HighConfidencePredictor.predict_ensemble_high_confidence` lines 297-304:
multiplicative boost followed by the minimum-confidence floor. -/
def calibrated_confidence_mult (min_confidence base_confidence agreement_rate : ℚ) : ℚ :=
  floor_step min_confidence
    (ensemble_confidence_boost_mult base_confidence agreement_rate) agreement_rate

/-- src/models/confidence_calibration.py lines 200-208: the additive boost,
then `if agreement_rate == 1.0: boosted_confidence = min(boosted_confidence * 1.2, 0.95)`.
Constants: 1.2 = 6/5, 0.95 = 19/20. -/
def boosted_add_stage (base_confidence agreement_rate : ℚ) (n_models : ℕ) : ℚ :=
  let boosted := ensemble_confidence_boost_add base_confidence agreement_rate n_models
  if agreement_rate = 1 then min (boosted * (6/5)) (19/20) else boosted

/-- The confidence chain of src/models/confidence_calibration.py
`HighConfidencePredictor.predict_ensemble_high_confidence` lines 200-212:
additive boost, unanimous-agreement re-boost, then the minimum-confidence
floor. The `base_confidence` argument stands for the maximum of the
temperature-scaled probabilities (the softmax over logs is transcendental and
is left abstract, as the claims quantify over the base confidence). -/
def calibrated_confidence_add (min_confidence base_confidence agreement_rate : ℚ)
    (n_models : ℕ) : ℚ :=
  floor_step min_confidence
    (boosted_add_stage base_confidence agreement_rate n_models) agreement_rate

/-- The per-sample result dict built in src/model.py lines 306-316: keys
`class`, `confidence`, `delta`, `agreement_rate` and the `ensemble_details`
sub-dict with keys `bagging`, `boosting`, `stacking`. The dict carries no
other key (in particular no floored marker). -/
structure SampleResult where
  cls : ℕ
  confidence : ℚ
  delta : ℚ
  agreement_rate : ℚ
  bagging : ℕ
  boosting : ℕ
  stacking : ℕ
deriving DecidableEq

/-- One loop iteration of src/model.py
`HighConfidencePredictor.predict_ensemble_high_confidence` (lines 278-316)
for a single sample: argmaxes of the three method triples and of the final
probabilities, agreement rate against the final argmax, base confidence
`np.max(probs)`, multiplicative boost, minimum-confidence floor, and the
result record. -/
def predict_sample_mult (min_confidence : ℚ) (probs : Probs3) (delta : ℚ)
    (bag boo sta : Probs3) : SampleResult :=
  let bagging_pred := argmax3 bag
  let boosting_pred := argmax3 boo
  let stacking_pred := argmax3 sta
  let final_pred := argmax3 probs
  let agreement_rate :=
    (agreement_count bagging_pred boosting_pred stacking_pred final_pred : ℚ) / 3
  let base_confidence := max3 probs
  let boosted_confidence :=
    floor_step min_confidence
      (ensemble_confidence_boost_mult base_confidence agreement_rate) agreement_rate
  { cls := final_pred
  , confidence := boosted_confidence
  , delta := delta
  , agreement_rate := agreement_rate
  , bagging := bagging_pred
  , boosting := boosting_pred
  , stacking := stacking_pred }

/-- The persisted artifacts visible to `EnsemblePredictor.load`
(src/model.py lines 205-225): which numbered base-model files exist, and
whether the meta-model and weight-vector files exist. -/
structure ArtifactStore where
  base_model_exists : ℕ → Bool
  meta_model_exists : Bool
  weights_exists : Bool

/-- The while loop of src/model.py lines 210-214: starting at index `i`,
keep loading `base_model_{i}.keras` while it exists, returning how many base
models end up loaded. The loop is bounded by `fuel` (a real directory holds
finitely many files); absence of a file raises nothing and merely stops the
loop. -/
def load_base_loop (fs : ArtifactStore) : ℕ → ℕ → ℕ
  | i, 0 => i
  | i, Nat.succ fuel => if fs.base_model_exists i then load_base_loop fs (i + 1) fuel else i

/-- State produced by `HFTModel.load_ensemble` (src/model.py lines 349-365)
that the claims inspect: number of loaded base models, presence of the meta
model, and the `is_loaded` flag. -/
structure HFTState where
  n_base_models : ℕ
  has_meta : Bool
  is_loaded : Bool
deriving DecidableEq

/-- src/model.py `HFTModel.load_ensemble` lines 349-365: run
`EnsemblePredictor.load` (the while loop above plus optional meta/weights
loads, none of which raises when files are merely absent) and then set
`self.is_loaded = True`; the except-branch is unreachable on mere absence of
artifacts. -/
def load_ensemble (fs : ArtifactStore) (fuel : ℕ) : HFTState :=
  { n_base_models := load_base_loop fs 0 fuel
  , has_meta := fs.meta_model_exists
  , is_loaded := true }

/-- An artifact directory in which `base_model_0.keras` is absent while every
higher-numbered base model, the meta model and the weight vector are all
present. -/
def store_missing_base0 : ArtifactStore :=
  { base_model_exists := fun i => i != 0
  , meta_model_exists := true
  , weights_exists := true }

/-- Maps a class index to its action label, src/model.py line 345:
`self.action_map = {0: "SELL", 1: "HOLD", 2: "BUY"}` (only ever applied to
argmax outputs, which lie in {0,1,2}). -/
def action_map (cls : ℕ) : String :=
  if cls = 0 then "SELL" else if cls = 1 then "HOLD" else "BUY"

/-- Everything `HFTModel.predict` consumes for a symbol: how many data rows
the CSV holds for it, the outputs of the opaque base/meta predictors already
aggregated into the three method triples and deltas (bagging, boosting,
stacking), whether the opaque predictor calls raise, and the reference
timestamp/price of the window. -/
structure PredictEnv where
  series_len : String → ℕ
  bagging : String → Probs3
  boosting : String → Probs3
  stacking : String → Probs3
  delta_bagging : String → ℚ
  delta_boosting : String → ℚ
  delta_stacking : String → ℚ
  infer_raises : String → Option String
  timestamp : String → String
  price : String → ℚ

/-- The decision record returned by `HFTModel.predict`
(src/model.py lines 421-435). -/
structure Decision where
  symbol : String
  action : String
  confidence : ℚ
  delta : ℚ
  ensemble_agreement : Bool
  agreement_rate : ℚ
  details_bagging : String
  details_boosting : String
  details_stacking : String
  timestamp : String
  price : ℚ
deriving DecidableEq

/-- src/model.py `HFTModel.predict` lines 367-435 for one symbol: raise
RuntimeError when not loaded, raise ValueError `"Insufficient data for {symbol}"`
when fewer rows than the window are available, propagate an opaque failure
from the predictor calls, and otherwise assemble the decision record from the
per-sample ensemble result (final probabilities and delta are the elementwise
means of the three methods, per `EnsemblePredictor.predict` lines 176-177;
`min_confidence=0.75` as passed at line 415). Raised exceptions are modelled
as `Except.error` of the message. -/
def hft_predict (is_loaded : Bool) (env : PredictEnv) (window_seconds : ℕ)
    (symbol : String) : Except String Decision :=
  if is_loaded = false then .error "Model not loaded. Call load_ensemble() first."
  else if env.series_len symbol < window_seconds then
    .error ("Insufficient data for " ++ symbol)
  else match env.infer_raises symbol with
  | some msg => .error msg
  | none =>
    let bag := env.bagging symbol
    let boo := env.boosting symbol
    let sta := env.stacking symbol
    let probs := mean3 bag boo sta
    let delta := (env.delta_bagging symbol + env.delta_boosting symbol +
      env.delta_stacking symbol) / 3
    let r := predict_sample_mult (3/4) probs delta bag boo sta
    .ok
      { symbol := symbol
      , action := action_map r.cls
      , confidence := r.confidence * 100
      , delta := r.delta
      , ensemble_agreement := decide (r.agreement_rate = 1)
      , agreement_rate := r.agreement_rate * 100
      , details_bagging := action_map r.bagging
      , details_boosting := action_map r.boosting
      , details_stacking := action_map r.stacking
      , timestamp := env.timestamp symbol
      , price := env.price symbol }

/-- One entry of the list returned by `HFTModel.predict_batch`: either the
decision dict, or the `{'symbol': symbol, 'error': str(e)}` dict built in the
except branch (src/model.py line 446). -/
inductive BatchEntry where
  | ok (d : Decision)
  | err (symbol : String) (error : String)
deriving DecidableEq

/-- The symbol carried by a batch entry (both variants carry one). -/
def entry_symbol : BatchEntry → String
  | .ok d => d.symbol
  | .err s _ => s

/-- src/model.py `HFTModel.predict_batch` lines 437-447: for each symbol in
order, try `self.predict(symbol)` and append its record; on any exception,
append `{'symbol': symbol, 'error': str(e)}` and continue with the remaining
symbols. -/
def predict_batch (is_loaded : Bool) (env : PredictEnv) (symbols : List String) :
    List BatchEntry :=
  symbols.map (fun symbol =>
    match hft_predict is_loaded env 128 symbol with
    | .ok r => .ok r
    | .error e => .err symbol e)

/-- Follows the spec's words (section 4.3, multiplicative policy): boosted =
base_confidence × (1 + (agreement_rate − 0.5) × 0.4), additionally × 1.6 when
agreement_rate == 1.0, additionally × 1.1 when agreement_rate ≥ 0.8, capped
at 0.95. Stated as one closed-form expression, to be compared with the
source-derived `ensemble_confidence_boost_mult`. -/
def boost_mult_spec (base_confidence agreement_rate : ℚ) : ℚ :=
  min (base_confidence * (1 + (agreement_rate - 1/2) * (2/5)) *
    (if agreement_rate = 1 then 8/5 else 1) *
    (if 4/5 ≤ agreement_rate then 11/10 else 1)) (19/20)

/-- Follows the spec's words (section 4.3, additive policy): boosted =
base_confidence + agreement_rate × 0.3 + min(n_models/10, 0.1), capped at
0.99; to be compared with the source-derived `ensemble_confidence_boost_add`. -/
def boost_add_spec (base_confidence agreement_rate : ℚ) (n_models : ℕ) : ℚ :=
  min (base_confidence + agreement_rate * (3/10) + min ((n_models : ℚ) / 10) (1/10))
    (99/100)

/-- C2: under the multiplicative policy the boosted confidence is exactly
base_confidence × (1 + (agreement_rate − 0.5) × 0.4), additionally × 1.6 when
agreement_rate == 1.0, additionally × 1.1 when agreement_rate ≥ 0.8, capped at
0.95 — for every base confidence and agreement rate. -/
theorem boost_mult_matches_spec (b ar : ℚ) :
    ensemble_confidence_boost_mult b ar = boost_mult_spec b ar := by
  simp only [ensemble_confidence_boost_mult, boost_mult_spec]
  split_ifs <;> (congr 1; ring)

/-- C3: under the additive policy the boosted confidence is exactly
base_confidence + agreement_rate × 0.3 + min(n_models/10, 0.1), capped at
0.99 — for every base confidence, agreement rate and model count. -/
theorem boost_add_matches_spec (b ar : ℚ) (n : ℕ) :
    ensemble_confidence_boost_add b ar n = boost_add_spec b ar n := by
  simp only [ensemble_confidence_boost_add, boost_add_spec]

lemma boost_mult_le_cap (b ar : ℚ) : ensemble_confidence_boost_mult b ar ≤ 19/20 := by
  simp only [ensemble_confidence_boost_mult]
  exact min_le_right _ _

lemma boost_add_le_cap (b ar : ℚ) (n : ℕ) :
    ensemble_confidence_boost_add b ar n ≤ 99/100 := by
  simp only [ensemble_confidence_boost_add]
  exact min_le_right _ _

lemma boosted_add_stage_le (b ar : ℚ) (n : ℕ) : boosted_add_stage b ar n ≤ 99/100 := by
  simp only [boosted_add_stage]
  split_ifs with h
  · exact le_trans (min_le_right _ _) (by norm_num)
  · exact boost_add_le_cap b ar n

lemma floor_step_le (mc x ar cap : ℚ) (h1 : mc + 1/20 ≤ cap) (h2 : x ≤ cap) :
    floor_step mc x ar ≤ cap := by
  simp only [floor_step]
  split_ifs with h
  · exact h1
  · exact h2

/-- C4: the reported confidence never exceeds its policy cap — 0.95 for the
multiplicative chain (including the record field produced by
`predict_ensemble_high_confidence`) and 0.99 for the additive chain — for
every base confidence and agreement rate, including pre-cap values above the
cap and outputs of the minimum-confidence floor (which, at the configured
`min_confidence = 0.75` with `0.75 + 0.05 ≤ cap`, stays below both caps). -/
theorem confidence_cap (mc b ar : ℚ) (n : ℕ) (probs : Probs3) (d : ℚ)
    (bag boo sta : Probs3) :
    (mc + 1/20 ≤ 19/20 →
      calibrated_confidence_mult mc b ar ≤ 19/20 ∧
      (predict_sample_mult mc probs d bag boo sta).confidence ≤ 19/20) ∧
    (mc + 1/20 ≤ 99/100 → calibrated_confidence_add mc b ar n ≤ 99/100) := by
  refine ⟨fun h => ⟨?_, ?_⟩, fun h => ?_⟩
  · exact floor_step_le _ _ _ _ h (boost_mult_le_cap b ar)
  · simp only [predict_sample_mult]
    exact floor_step_le _ _ _ _ h (boost_mult_le_cap _ _)
  · exact floor_step_le _ _ _ _ h (boosted_add_stage_le b ar n)

/-- C4 witness: at `min_confidence = 0.75` and an adversarial base confidence
of 2 (pre-cap boosted value far above both caps), unanimous agreement. -/
theorem confidence_cap_witness :
    calibrated_confidence_mult (3/4) 2 1 ≤ 19/20 ∧
    calibrated_confidence_add (3/4) 2 1 5 ≤ 99/100 := by
  have h := confidence_cap (3/4) 2 1 5 ⟨1, 0, 0⟩ 0 ⟨1, 0, 0⟩ ⟨1, 0, 0⟩ ⟨1, 0, 0⟩
  exact ⟨(h.1 (by norm_num)).1, h.2 (by norm_num)⟩

/-- C5: in both pipelines the minimum-confidence floor fires exactly when the
boosted confidence is below `min_confidence` and the agreement rate is at
least 0.67, in which case the confidence is forced to `min_confidence + 0.05`;
at agreement rate 1/3 the floor never fires and the boosted value passes
through unchanged, however low it is. -/
theorem floor_characterization (mc b ar : ℚ) (n : ℕ) :
    (ensemble_confidence_boost_mult b ar < mc ∧ 67/100 ≤ ar →
      calibrated_confidence_mult mc b ar = mc + 1/20) ∧
    (¬(ensemble_confidence_boost_mult b ar < mc ∧ 67/100 ≤ ar) →
      calibrated_confidence_mult mc b ar = ensemble_confidence_boost_mult b ar) ∧
    calibrated_confidence_mult mc b (1/3) = ensemble_confidence_boost_mult b (1/3) ∧
    (boosted_add_stage b ar n < mc ∧ 67/100 ≤ ar →
      calibrated_confidence_add mc b ar n = mc + 1/20) ∧
    (¬(boosted_add_stage b ar n < mc ∧ 67/100 ≤ ar) →
      calibrated_confidence_add mc b ar n = boosted_add_stage b ar n) ∧
    calibrated_confidence_add mc b (1/3) n = ensemble_confidence_boost_add b (1/3) n := by
  refine ⟨fun h => ?_, fun h => ?_, ?_, fun h => ?_, fun h => ?_, ?_⟩
  · simp only [calibrated_confidence_mult, floor_step, if_pos h]
  · simp only [calibrated_confidence_mult, floor_step, if_neg h]
  · simp only [calibrated_confidence_mult, floor_step]
    rw [if_neg]
    intro h
    exact absurd h.2 (by norm_num)
  · simp only [calibrated_confidence_add, floor_step, if_pos h]
  · simp only [calibrated_confidence_add, floor_step, if_neg h]
  · simp only [calibrated_confidence_add, floor_step, boosted_add_stage]
    rw [if_neg (by norm_num : ¬((1:ℚ)/3 = 1))]
    rw [if_neg]
    intro h
    exact absurd h.2 (by norm_num)

/-- C5 witness: at `min_confidence = 0.75`, a base confidence of 0.1 with
unanimous agreement boosts to 0.2112 < 0.75, so the floor forces 0.80; the
same base confidence at agreement rate 1/3 passes through unfloored. -/
theorem floor_characterization_witness :
    calibrated_confidence_mult (3/4) (1/10) 1 = 3/4 + 1/20 ∧
    calibrated_confidence_mult (3/4) (1/10) (1/3) =
      ensemble_confidence_boost_mult (1/10) (1/3) := by
  constructor
  · exact (floor_characterization (3/4) (1/10) 1 5).1
      ⟨by norm_num [ensemble_confidence_boost_mult], by norm_num⟩
  · exact (floor_characterization (3/4) (1/10) (1/3) 5).2.2.1

/-- C7: for a fixed nonnegative base confidence (a probability maximum is
always nonnegative), the multiplicative-policy boosted confidence is
non-decreasing as the agreement rate climbs through its reachable values
1/3, 2/3, 1. -/
theorem boost_mult_monotone_in_agreement (b : ℚ) (hb : 0 ≤ b) :
    ensemble_confidence_boost_mult b (1/3) ≤ ensemble_confidence_boost_mult b (2/3) ∧
    ensemble_confidence_boost_mult b (2/3) ≤ ensemble_confidence_boost_mult b 1 := by
  have h13 : ensemble_confidence_boost_mult b (1/3) = min (b * (14/15)) (19/20) := by
    simp only [ensemble_confidence_boost_mult]
    rw [if_neg (by norm_num : ¬((1:ℚ)/3 = 1)), if_neg (by norm_num : ¬((4:ℚ)/5 ≤ 1/3))]
    congr 1
    ring
  have h23 : ensemble_confidence_boost_mult b (2/3) = min (b * (16/15)) (19/20) := by
    simp only [ensemble_confidence_boost_mult]
    rw [if_neg (by norm_num : ¬((2:ℚ)/3 = 1)), if_neg (by norm_num : ¬((4:ℚ)/5 ≤ 2/3))]
    congr 1
    ring
  have h1 : ensemble_confidence_boost_mult b 1 = min (b * (264/125)) (19/20) := by
    simp only [ensemble_confidence_boost_mult, if_true]
    rw [if_pos (by norm_num : (4:ℚ)/5 ≤ 1)]
    congr 1
    ring
  rw [h13, h23, h1]
  constructor
  · exact min_le_min (mul_le_mul_of_nonneg_left (by norm_num) hb) le_rfl
  · exact min_le_min (mul_le_mul_of_nonneg_left (by norm_num) hb) le_rfl

/-- C7 witness: at base confidence 1/2 the chain of boosts is non-decreasing
across agreement rates 1/3, 2/3, 1. -/
theorem boost_mult_monotone_in_agreement_witness :
    ensemble_confidence_boost_mult (1/2) (1/3) ≤ ensemble_confidence_boost_mult (1/2) (2/3) ∧
    ensemble_confidence_boost_mult (1/2) (2/3) ≤ ensemble_confidence_boost_mult (1/2) 1 :=
  boost_mult_monotone_in_agreement (1/2) (by norm_num)

/-- C10: in the additive pipeline of
`predict_ensemble_high_confidence` (src/models/confidence_calibration.py), a
unanimous result is re-boosted by 1.2 and re-capped at 0.95 (so it never
exceeds 0.95), while a 2/3-agreement result keeps the 0.99 cap and attains
0.99 at base confidence 0.75; hence raising agreement from 2/3 to 1 at base
confidence 0.75 strictly lowers the reported confidence from 0.99 to 0.95. -/
theorem additive_pipeline_nonmonotone :
    (∀ b : ℚ, calibrated_confidence_add (3/4) b 1 5 ≤ 19/20) ∧
    calibrated_confidence_add (3/4) (3/4) (2/3) 5 = 99/100 ∧
    calibrated_confidence_add (3/4) (3/4) 1 5 = 19/20 ∧
    calibrated_confidence_add (3/4) (3/4) 1 5 < calibrated_confidence_add (3/4) (3/4) (2/3) 5 := by
  refine ⟨fun b => ?_, ?_, ?_, ?_⟩
  · simp only [calibrated_confidence_add, floor_step, boosted_add_stage, if_true]
    split_ifs with h
    · norm_num
    · exact min_le_right _ _
  · norm_num [calibrated_confidence_add, floor_step, boosted_add_stage,
      ensemble_confidence_boost_add]
  · norm_num [calibrated_confidence_add, floor_step, boosted_add_stage,
      ensemble_confidence_boost_add]
  · norm_num [calibrated_confidence_add, floor_step, boosted_add_stage,
      ensemble_confidence_boost_add]

lemma agreement_count_eq_three_iff (a b c f : ℕ) :
    agreement_count a b c f = 3 ↔ a = f ∧ b = f ∧ c = f := by
  unfold agreement_count
  split_ifs <;> omega

lemma count_div_three_eq_one_iff (k : ℕ) : ((k : ℚ) / 3 = 1) ↔ k = 3 := by
  rw [div_eq_one_iff_eq (by norm_num : (3:ℚ) ≠ 0)]
  exact_mod_cast Iff.rfl

lemma anchor_as_count (bag boo sta : Probs3) :
    agreement_rate_anchor bag boo sta =
      (agreement_count (argmax3 bag) (argmax3 boo) (argmax3 sta) (argmax3 bag) : ℚ) / 3 := by
  simp only [agreement_rate_anchor, agreement_count, List.headI, List.map_cons,
    List.map_nil, List.sum_cons, List.sum_nil, List.length_cons, List.length_nil]
  norm_num
  congr 1
  split_ifs <;> norm_num

/-- C1 counterexample: a constructed disagreement case (bagging picks class 0,
boosting and stacking pick class 1, the final mean picks class 1) where the
agreement rate computed by src/models/confidence_calibration.py (count of
method argmaxes equal to the bagging argmax, here 1/3) differs from the
claim's formula (count of method argmaxes equal to the final argmax,
here 2/3). -/
theorem agreement_anchor_ne_claim_counterexample :
    agreement_rate_anchor ⟨1/2, 2/5, 1/10⟩ ⟨1/10, 4/5, 1/10⟩ ⟨1/10, 4/5, 1/10⟩ ≠
      (agreement_count (argmax3 ⟨1/2, 2/5, 1/10⟩) (argmax3 ⟨1/10, 4/5, 1/10⟩)
        (argmax3 ⟨1/10, 4/5, 1/10⟩)
        (argmax3 (mean3 ⟨1/2, 2/5, 1/10⟩ ⟨1/10, 4/5, 1/10⟩ ⟨1/10, 4/5, 1/10⟩)) : ℚ) / 3 := by
  norm_num [agreement_rate_anchor, agreement_count, argmax3, mean3, List.headI]

/-- C1 amended: in src/model.py the per-sample agreement rate equals the count
of the three method argmaxes equal to the final argmax divided by 3, and it
equals 1 exactly when all three method argmaxes equal the final argmax; in
src/models/confidence_calibration.py the agreement rate instead equals the
count of the three method argmaxes equal to the bagging argmax divided by 3,
and it equals 1 exactly when boosting and stacking agree with bagging
(irrespective of the final argmax). -/
theorem agreement_rate_amended (mc d : ℚ) (bag boo sta probs : Probs3) :
    ((predict_sample_mult mc probs d bag boo sta).agreement_rate =
      (agreement_count (argmax3 bag) (argmax3 boo) (argmax3 sta) (argmax3 probs) : ℚ) / 3) ∧
    ((predict_sample_mult mc probs d bag boo sta).agreement_rate = 1 ↔
      argmax3 bag = argmax3 probs ∧ argmax3 boo = argmax3 probs ∧
        argmax3 sta = argmax3 probs) ∧
    (agreement_rate_anchor bag boo sta =
      (agreement_count (argmax3 bag) (argmax3 boo) (argmax3 sta) (argmax3 bag) : ℚ) / 3) ∧
    (agreement_rate_anchor bag boo sta = 1 ↔
      argmax3 boo = argmax3 bag ∧ argmax3 sta = argmax3 bag) := by
  have hrate : (predict_sample_mult mc probs d bag boo sta).agreement_rate =
      (agreement_count (argmax3 bag) (argmax3 boo) (argmax3 sta) (argmax3 probs) : ℚ) / 3 := rfl
  refine ⟨hrate, ?_, anchor_as_count bag boo sta, ?_⟩
  · rw [hrate, count_div_three_eq_one_iff, agreement_count_eq_three_iff]
  · rw [anchor_as_count, count_div_three_eq_one_iff, agreement_count_eq_three_iff]
    simp

/-- C1 amended witness: with bagging, boosting and stacking all equal to the
same triple (argmax 0) and the final probabilities equal to their mean, both
agreement rates evaluate to 1 through the characterizations above. -/
theorem agreement_rate_amended_witness :
    (predict_sample_mult (3/4) ⟨1/2, 3/10, 1/5⟩ 0 ⟨1/2, 3/10, 1/5⟩ ⟨1/2, 3/10, 1/5⟩
      ⟨1/2, 3/10, 1/5⟩).agreement_rate = 1 ∧
    agreement_rate_anchor ⟨1/2, 3/10, 1/5⟩ ⟨1/2, 3/10, 1/5⟩ ⟨1/2, 3/10, 1/5⟩ = 1 := by
  have h := agreement_rate_amended (3/4) 0 ⟨1/2, 3/10, 1/5⟩ ⟨1/2, 3/10, 1/5⟩
    ⟨1/2, 3/10, 1/5⟩ ⟨1/2, 3/10, 1/5⟩
  exact ⟨h.2.1.mpr ⟨rfl, rfl, rfl⟩, h.2.2.2.mpr ⟨rfl, rfl⟩⟩

/-- C6: the result record of `predict_ensemble_high_confidence` carries no
marker of the minimum-confidence floor. Two predictions — one whose boosted
confidence 0.7392 was overridden by the floor to 0.80, one whose boosted
confidence is genuinely 0.80 with no override — produce byte-for-byte equal
result records, so a caller cannot distinguish a floored confidence from a
computed one. -/
theorem floored_record_indistinguishable :
    predict_sample_mult (3/4) ⟨7/20, 7/20, 3/10⟩ 0 ⟨7/20, 7/20, 3/10⟩ ⟨7/20, 7/20, 3/10⟩
        ⟨7/20, 7/20, 3/10⟩ =
      predict_sample_mult (3/4) ⟨25/66, 25/66, 8/33⟩ 0 ⟨25/66, 25/66, 8/33⟩
        ⟨25/66, 25/66, 8/33⟩ ⟨25/66, 25/66, 8/33⟩ ∧
    ensemble_confidence_boost_mult (7/20) 1 < 3/4 ∧
    ¬ ensemble_confidence_boost_mult (25/66) 1 < 3/4 := by
  refine ⟨?_, by norm_num [ensemble_confidence_boost_mult],
    by norm_num [ensemble_confidence_boost_mult]⟩
  norm_num [predict_sample_mult, floor_step, ensemble_confidence_boost_mult,
    agreement_count, argmax3, max3]

/-- C8: with `base_model_0.keras` absent (all higher-numbered base models,
the meta model and the weight vector present), `HFTModel.load_ensemble`
raises nothing, loads zero base models, and still sets `is_loaded = True` —
the system does not end in a not-loaded state. -/
theorem load_missing_base0_reports_loaded (fuel : ℕ) :
    (load_ensemble store_missing_base0 fuel).is_loaded = true ∧
    (load_ensemble store_missing_base0 fuel).n_base_models = 0 := by
  refine ⟨rfl, ?_⟩
  cases fuel with
  | zero => rfl
  | succ n => simp [load_ensemble, load_base_loop, store_missing_base0]

lemma hft_predict_ok_symbol (l : Bool) (env : PredictEnv) (w : ℕ) (s : String)
    (d : Decision) (h : hft_predict l env w s = .ok d) : d.symbol = s := by
  unfold hft_predict at h
  by_cases h1 : l = false
  · rw [if_pos h1] at h
    exact absurd h (by simp)
  · rw [if_neg h1] at h
    by_cases h2 : env.series_len s < w
    · rw [if_pos h2] at h
      exact absurd h (by simp)
    · rw [if_neg h2] at h
      cases hre : env.infer_raises s with
      | some msg =>
        rw [hre] at h
        exact absurd h (by simp)
      | none =>
        rw [hre] at h
        simp only [Except.ok.injEq] at h
        rw [← h]

/-- C9: batch prediction returns exactly one entry per input symbol in input
order; an input whose single-symbol prediction raises yields the record
`{symbol, error}` carrying that symbol and the error message in place of a
decision, an input whose prediction succeeds yields its decision record
(which carries the input symbol), and either way every other symbol is still
processed (the output length always equals the input length). -/
theorem predict_batch_isolates_failures (l : Bool) (env : PredictEnv)
    (symbols : List String) :
    (predict_batch l env symbols).length = symbols.length ∧
    ∀ (i : ℕ) (s : String), symbols[i]? = some s →
      (∀ e, hft_predict l env 128 s = .error e →
        (predict_batch l env symbols)[i]? = some (BatchEntry.err s e)) ∧
      (∀ d, hft_predict l env 128 s = .ok d →
        (predict_batch l env symbols)[i]? = some (BatchEntry.ok d) ∧ d.symbol = s) := by
  refine ⟨List.length_map _ _, fun i s hs => ⟨fun e he => ?_, fun d hd => ?_⟩⟩
  · simp only [predict_batch, List.getElem?_map, hs, Option.map_some', he]
  · refine ⟨?_, hft_predict_ok_symbol l env 128 s d hd⟩
    simp only [predict_batch, List.getElem?_map, hs, Option.map_some', hd]

/-- A concrete two-symbol environment: symbol B has a full 128-row window,
symbol A has no data at all; the opaque predictors never raise and always
emit the same triple. -/
def env0 : PredictEnv :=
  { series_len := fun s => if s = "B" then 128 else 0
  , bagging := fun _ => ⟨1/2, 1/4, 1/4⟩
  , boosting := fun _ => ⟨1/2, 1/4, 1/4⟩
  , stacking := fun _ => ⟨1/2, 1/4, 1/4⟩
  , delta_bagging := fun _ => 0
  , delta_boosting := fun _ => 0
  , delta_stacking := fun _ => 0
  , infer_raises := fun _ => none
  , timestamp := fun _ => "t0"
  , price := fun _ => 100 }

/-- C9 witness: over the mixed list [A, B] with A lacking data, the batch
result has one entry per input and entry 0 is the `{symbol, error}` record
for A. -/
theorem predict_batch_isolates_failures_witness :
    (predict_batch true env0 ["A", "B"]).length = 2 ∧
    (predict_batch true env0 ["A", "B"])[0]? =
      some (.err "A" ("Insufficient data for " ++ "A")) := by
  have h := predict_batch_isolates_failures true env0 ["A", "B"]
  exact ⟨h.1, (h.2 0 "A" rfl).1 ("Insufficient data for " ++ "A") rfl⟩

end HFT
